import Mathlib

/-!
Verification of the launcher script `scrips/mqtt-mcp-stdio.py`.

The script is modelled as a pure function from an abstract execution
environment to the list of observable effects it performs together with the
way the execution terminates.  The environment records everything the host
runtime decides for the script: whether `from mqtt_mcp.server import MQTTMCP`
succeeds (and, if it raises, which exception), whether `server.run_async`
returns normally or raises, whether the script runs as the main program
(`__name__ == "__main__"`), and the process argv and environment variables
(which the script never reads, but which belong to the state so that
independence from them is a provable statement, not a modelling artifact).
-/

/-- A Python exception value, identified by a numeric tag so that the claim
that an exception propagates unchanged is expressible, together with the flag
telling whether it is an instance of ImportError (the only class the script
catches). -/
structure PyExc where
  isImportErr : Bool
  eid : Nat
deriving DecidableEq, Repr

/-- Outcome of executing `from mqtt_mcp.server import MQTTMCP`. -/
inductive ImportResult where
  | ok : ImportResult
  | raised : PyExc → ImportResult
deriving DecidableEq, Repr

/-- Outcome of awaiting `server.run_async(transport="stdio")`. -/
inductive RunResult where
  | normal : RunResult
  | raised : PyExc → RunResult
deriving DecidableEq, Repr

/-- The execution environment of the script: what the runtime decides. -/
structure Env where
  nameIsMain : Bool
  importResult : ImportResult
  runResult : RunResult
  argv : List String
  envVars : List (String × String)

/-- Observable effects of one execution of the script. -/
inductive Event where
  | constructServer : List String → Event
  | runAsync : String → Event
  | stderrLine : String → Event
  | stdoutLine : String → Event
deriving DecidableEq, Repr

/-- How the execution of the script ends. -/
inductive Outcome where
  | exit : Nat → Outcome
  | propagated : PyExc → Outcome
  | moduleLoaded : Outcome
deriving DecidableEq, Repr

/-- The events performed by one execution together with its outcome. -/
structure ExecResult where
  events : List Event
  outcome : Outcome
deriving DecidableEq, Repr

/-- The diagnostic printed to stderr when the import fails, verbatim from the
source. -/
def missingDepMsg : String :=
  "Error: mqtt-mcp not found. Install with: uv pip install mqtt-mcp"

/-- Execution of `scrips/mqtt-mcp-stdio.py`, line by line: the guarded import
with its `except ImportError` handler printing `missingDepMsg` to stderr and
calling `sys.exit(1)`; then, only under the `__name__ == "__main__"` guard,
`asyncio.run(main())` where `main` constructs `MQTTMCP()` with no arguments and
awaits `server.run_async(transport="stdio")`.  An exception other than
ImportError during the import, and any exception out of the run call,
propagate unchanged. -/
def runScript (env : Env) : ExecResult :=
  match env.importResult with
  | ImportResult.raised e =>
      if e.isImportErr then
        { events := [Event.stderrLine missingDepMsg], outcome := Outcome.exit 1 }
      else
        { events := [], outcome := Outcome.propagated e }
  | ImportResult.ok =>
      if env.nameIsMain then
        match env.runResult with
        | RunResult.normal =>
            { events := [Event.constructServer [], Event.runAsync "stdio"],
              outcome := Outcome.exit 0 }
        | RunResult.raised e =>
            { events := [Event.constructServer [], Event.runAsync "stdio"],
              outcome := Outcome.propagated e }
      else
        { events := [], outcome := Outcome.moduleLoaded }

/-- Whether an event is a server construction. -/
def Event.isConstruct : Event → Bool
  | Event.constructServer _ => true
  | _ => false

/-- Whether an event is a call of the server run operation. -/
def Event.isRun : Event → Bool
  | Event.runAsync _ => true
  | _ => false

/-- Whether an event is a write to standard output. -/
def Event.isStdout : Event → Bool
  | Event.stdoutLine _ => true
  | _ => false

/-- Whether the first list of characters begins with the second. -/
def charsStartWith : List Char → List Char → Bool
  | _, [] => true
  | [], _ :: _ => false
  | h :: hs, n :: ns => h == n && charsStartWith hs ns

/-- Whether the second list of characters occurs contiguously in the first. -/
def charsHaveSub : List Char → List Char → Bool
  | [], needle => needle.isEmpty
  | h :: hs, needle => charsStartWith (h :: hs) needle || charsHaveSub hs needle

/-- Whether the string `needle` occurs as a contiguous substring of `hay`. -/
def strHasSub (hay needle : String) : Bool :=
  charsHaveSub hay.toList needle.toList

/-- A concrete environment: main program, import succeeds, run returns. -/
def envMainOk : Env :=
  { nameIsMain := true, importResult := ImportResult.ok,
    runResult := RunResult.normal, argv := [], envVars := [] }

/-- A concrete ImportError exception. -/
def impErr : PyExc := { isImportErr := true, eid := 7 }

/-- A concrete exception that is not an ImportError. -/
def otherErr : PyExc := { isImportErr := false, eid := 3 }

/-- Helper: the trace of a successful main run is the two-event list. -/
theorem runScript_ok_main_events (env : Env)
    (himp : env.importResult = ImportResult.ok) (hmain : env.nameIsMain = true) :
    (runScript env).events = [Event.constructServer [], Event.runAsync "stdio"] := by
  cases hr : env.runResult <;> simp [runScript, himp, hmain, hr]

/-- C1: with the import resolvable and the script run as the main program, the
Launcher constructs exactly one server instance and calls its run operation
exactly once, and the transport argument of every run call is "stdio". -/
theorem launcher_constructs_and_runs_once (env : Env)
    (himp : env.importResult = ImportResult.ok) (hmain : env.nameIsMain = true) :
    ((runScript env).events.countP Event.isConstruct = 1) ∧
    ((runScript env).events.countP Event.isRun = 1) ∧
    (∀ t, Event.runAsync t ∈ (runScript env).events → t = "stdio") := by
  rw [runScript_ok_main_events env himp hmain]
  refine ⟨by decide, by decide, ?_⟩
  intro t ht
  simp [Event.isRun] at ht
  exact ht

/-- C1 witness at a concrete environment. -/
theorem launcher_constructs_and_runs_once_w :
    ((runScript envMainOk).events.countP Event.isConstruct = 1) ∧
    ((runScript envMainOk).events.countP Event.isRun = 1) :=
  ⟨(launcher_constructs_and_runs_once envMainOk rfl rfl).1,
   (launcher_constructs_and_runs_once envMainOk rfl rfl).2.1⟩

/-- C2: when the import raises an ImportError, the Launcher prints exactly the
diagnostic to stderr, that diagnostic names the missing package and the
install remedy, the process exits with code 1, and no server is constructed. -/
theorem launcher_missing_dep (env : Env) (e : PyExc)
    (himp : env.importResult = ImportResult.raised e) (hie : e.isImportErr = true) :
    ((runScript env).events = [Event.stderrLine missingDepMsg]) ∧
    (strHasSub missingDepMsg "mqtt-mcp" = true) ∧
    (strHasSub missingDepMsg "Install with: uv pip install mqtt-mcp" = true) ∧
    ((runScript env).outcome = Outcome.exit 1) ∧
    ((runScript env).events.countP Event.isConstruct = 0) := by
  have h : runScript env =
      { events := [Event.stderrLine missingDepMsg], outcome := Outcome.exit 1 } := by
    simp [runScript, himp, hie]
  rw [h]
  exact ⟨rfl, by decide, by decide, rfl, by decide⟩

/-- C2 witness at a concrete environment. -/
theorem launcher_missing_dep_w :
    ((runScript { envMainOk with importResult := ImportResult.raised impErr }).events
      = [Event.stderrLine missingDepMsg]) ∧
    (strHasSub missingDepMsg "mqtt-mcp" = true) ∧
    (strHasSub missingDepMsg "Install with: uv pip install mqtt-mcp" = true) ∧
    ((runScript { envMainOk with importResult := ImportResult.raised impErr }).outcome
      = Outcome.exit 1) ∧
    ((runScript { envMainOk with importResult := ImportResult.raised impErr }).events.countP
      Event.isConstruct = 0) :=
  launcher_missing_dep _ impErr rfl rfl

/-- C3: for every main-program execution, the exit code is 0 exactly when
the import succeeded and the run loop returned cleanly, 1 exactly when the
dependency import raised an ImportError, and no exit code other than 0 or 1
is ever produced by the Launcher itself. -/
theorem launcher_exit_codes (env : Env) (hmain : env.nameIsMain = true) :
    (((runScript env).outcome = Outcome.exit 0) ↔
      (env.importResult = ImportResult.ok ∧ env.runResult = RunResult.normal)) ∧
    (((runScript env).outcome = Outcome.exit 1) ↔
      (∃ e, env.importResult = ImportResult.raised e ∧ e.isImportErr = true)) ∧
    (∀ c, (runScript env).outcome = Outcome.exit c → c = 0 ∨ c = 1) := by
  cases hi : env.importResult with
  | ok =>
    cases hr : env.runResult <;>
      simp [runScript, hi, hr, hmain]
  | raised e =>
    cases hb : e.isImportErr <;>
      simp [runScript, hi, hb, hmain]

/-- C3 witness at a concrete environment. -/
theorem launcher_exit_codes_w :
    ((runScript envMainOk).outcome = Outcome.exit 0) ↔
      (envMainOk.importResult = ImportResult.ok ∧
        envMainOk.runResult = RunResult.normal) :=
  (launcher_exit_codes envMainOk rfl).1

/-- C4: every server construction performed by the Launcher, in any execution,
passes the empty argument list to the constructor. -/
theorem launcher_zero_arg_construction (env : Env) (args : List String)
    (h : Event.constructServer args ∈ (runScript env).events) : args = [] := by
  cases hi : env.importResult with
  | ok =>
    by_cases hm : env.nameIsMain = true
    · rw [runScript_ok_main_events env hi hm] at h
      simp at h
      exact h
    · simp [runScript, hi, hm] at h
  | raised e =>
    cases hb : e.isImportErr <;> simp [runScript, hi, hb] at h

/-- C4 witness at a concrete environment. -/
theorem launcher_zero_arg_construction_w : ([] : List String) = [] :=
  launcher_zero_arg_construction envMainOk [] (by decide)

/-- C5: an exception raised by the run loop of the server propagates out of
the Launcher unchanged: the outcome carries the very same exception and no
diagnostic line is written. -/
theorem launcher_propagates_run_errors (env : Env) (e : PyExc)
    (himp : env.importResult = ImportResult.ok) (hmain : env.nameIsMain = true)
    (hrun : env.runResult = RunResult.raised e) :
    ((runScript env).outcome = Outcome.propagated e) ∧
    (∀ s, Event.stderrLine s ∉ (runScript env).events) := by
  constructor
  · simp [runScript, himp, hmain, hrun]
  · intro s
    rw [runScript_ok_main_events env himp hmain]
    simp

/-- C5 witness at a concrete environment. -/
theorem launcher_propagates_run_errors_w :
    (runScript { envMainOk with runResult := RunResult.raised otherErr }).outcome
      = Outcome.propagated otherErr :=
  (launcher_propagates_run_errors _ otherErr rfl rfl rfl).1

/-- C6: two executions whose environments agree on the main-program flag,
the import outcome and the run outcome, but differ arbitrarily in argv and
in the environment variables, perform identical events and end identically. -/
theorem launcher_ignores_argv_env (e1 e2 : Env)
    (h1 : e1.nameIsMain = e2.nameIsMain)
    (h2 : e1.importResult = e2.importResult)
    (h3 : e1.runResult = e2.runResult) :
    runScript e1 = runScript e2 := by
  cases e1 with
  | mk m1 i1 r1 a1 v1 =>
    cases e2 with
    | mk m2 i2 r2 a2 v2 =>
      dsimp at h1 h2 h3
      subst h1; subst h2; subst h3
      cases i1 with
      | ok => cases m1 <;> cases r1 <;> rfl
      | raised e => cases e with | mk b n => cases b <;> rfl

/-- C6 witness: two concrete environments differing only in argv and the
environment variables give the same execution. -/
theorem launcher_ignores_argv_env_w :
    runScript { envMainOk with
        argv := ["--flag", "value"], envVars := [("HOME", "/root")] }
      = runScript envMainOk :=
  launcher_ignores_argv_env _ _ rfl rfl rfl

/-- C8: in every execution, the Launcher writes nothing to standard output. -/
theorem launcher_stdout_untouched (env : Env) :
    (runScript env).events.countP Event.isStdout = 0 := by
  cases hi : env.importResult with
  | ok =>
    by_cases hm : env.nameIsMain = true
    · rw [runScript_ok_main_events env hi hm]; decide
    · simp [runScript, hi, hm]
  | raised e =>
    cases hb : e.isImportErr <;> simp [runScript, hi, hb, Event.isStdout]

/-- C9: an exception raised during the import that is not an ImportError is
not converted into the diagnostic path: it propagates unchanged, no line is
written to stderr and the exit-1 path is not taken. -/
theorem launcher_non_import_error_propagates (env : Env) (e : PyExc)
    (himp : env.importResult = ImportResult.raised e) (hne : e.isImportErr = false) :
    ((runScript env).outcome = Outcome.propagated e) ∧
    ((runScript env).events = []) := by
  constructor <;> simp [runScript, himp, hne]

/-- C9 witness at a concrete environment. -/
theorem launcher_non_import_error_propagates_w :
    ((runScript { envMainOk with importResult := ImportResult.raised otherErr }).outcome
      = Outcome.propagated otherErr) ∧
    ((runScript { envMainOk with importResult := ImportResult.raised otherErr }).events
      = []) :=
  launcher_non_import_error_propagates _ otherErr rfl rfl

/-- C10: when the script is imported as a module (not run as the main
program) and the import of the server succeeds, no server is constructed and
the run operation is never called. -/
theorem launcher_module_import_no_run (env : Env)
    (himp : env.importResult = ImportResult.ok) (hmain : env.nameIsMain = false) :
    ((runScript env).events.countP Event.isConstruct = 0) ∧
    ((runScript env).events.countP Event.isRun = 0) := by
  constructor <;> simp [runScript, himp, hmain]

/-- C10 witness at a concrete environment. -/
theorem launcher_module_import_no_run_w :
    ((runScript { envMainOk with nameIsMain := false }).events.countP
      Event.isConstruct = 0) ∧
    ((runScript { envMainOk with nameIsMain := false }).events.countP
      Event.isRun = 0) :=
  launcher_module_import_no_run _ rfl rfl
